import Mathlib

/-!
Verification development for the signal-graph composition core of the
repository: the connection discipline of `Tone.SignalBase.prototype.connect`,
the comparator family (`Tone.GreaterThan` over `Tone.GreaterThanZero`), the
envelope follower (`Tone.Follower`), and the stereo feedback delay network
(`Tone.PingPongDelay`).

The embedding is shallow: each JavaScript function of the repository is
translated into an executable Lean definition over explicit state.  Sample
values, parameter values and time values are rationals; discrete time is `ℕ`
with one step per minimal processing quantum.  Primitive units that the
repository only consumes (subtractor, comparator-to-zero, the stereo
cross-feedback base effect, time conversion helpers) are modelled from the
specification, and each such definition says so in its doc comment.
-/

namespace ToneModel

/-! ## Connection discipline (`Tone.SignalBase.prototype.connect`)

The source checks `node.constructor === Tone.Signal` (an exact constructor
match, not an `instanceof` test) and `node instanceof AudioParam`.  We model
the constructor tag of a destination explicitly; `Tone.GreaterThan` is
declared in the source with `Tone.extend(Tone.GreaterThan, Tone.Signal)`,
so it is a subclass of `Tone.Signal`, and `Tone.Follower` extends `Tone`
only. -/

/-- Constructor tag of a destination node: `Tone.Signal` itself, the
`Tone.GreaterThan` subclass of `Tone.Signal`, a native `AudioParam`, or a
plain audio-rate node with no parameter semantics (e.g. a gain node). -/
inductive NodeCtor
  | signal
  | greaterThan
  | audioParam
  | plainAudio
deriving DecidableEq, Repr

/-- JavaScript `instanceof Tone.Signal`: true for `Tone.Signal` and for every
subclass of it (`Tone.GreaterThan` is extended from `Tone.Signal`). -/
def isSignalInstance : NodeCtor → Bool
  | NodeCtor.signal => true
  | NodeCtor.greaterThan => true
  | _ => false

/-- JavaScript `instanceof AudioParam`. -/
def isAudioParamInstance : NodeCtor → Bool
  | NodeCtor.audioParam => true
  | _ => false

/-- State of the destination node passed to `connect`: its constructor tag,
the automation events scheduled on its underlying parameter, and the
parameter value it currently holds. -/
structure DestState where
  ctor : NodeCtor
  scheduled : List ℚ
  value : ℚ
deriving DecidableEq, Repr

/-- Result of a `connect` call: the destination node state after the call and
the edge list of the surrounding graph after the call. -/
structure ConnectResult where
  dest : DestState
  edges : List (ℕ × ℕ)
deriving DecidableEq, Repr

namespace SignalBase

/-- Translation of `Tone.SignalBase.prototype.connect` (GreaterThan.js lines
78–91).  If `node.constructor === Tone.Signal`, cancel the scheduled values
of `node._value` and set its value to 0; else if `node instanceof
AudioParam`, cancel its scheduled values and set its value to 0; in every
other case the destination is untouched.  Then `Tone.prototype.connect`
wires the edge. -/
def connect (srcId destId : ℕ) (node : DestState) (edges : List (ℕ × ℕ)) :
    ConnectResult :=
  let node :=
    if node.ctor = NodeCtor.signal then
      { node with scheduled := [], value := 0 }
    else if isAudioParamInstance node.ctor then
      { node with scheduled := [], value := 0 }
    else node
  { dest := node, edges := edges ++ [(srcId, destId)] }

end SignalBase

/-! ## Comparator family (`Tone.GreaterThanZero`, `Tone.Subtract`,
`Tone.GreaterThan`) -/

/-- Modelled from the spec: `Tone.GreaterThanZero` is not under `src/`; the
spec gives its contract as outputting 1 when the input is strictly greater
than 0 and 0 otherwise, realized as a shaping-table lookup. -/
def greaterThanZero (x : ℚ) : ℚ :=
  if 0 < x then 1 else 0

/-- Modelled from the spec: `Tone.Subtract` is not under `src/`; the spec
table of primitive contracts gives the subtractor as
`two inputs → output = in0 − in1`. -/
def subtractOut (in0 in1 : ℚ) : ℚ :=
  in0 - in1

namespace GreaterThan

/-- Translation of the `Tone.GreaterThan` constructor (GreaterThan.js lines
14–35): input 0 enters a `Tone.Subtract(value)` whose second input is either
the static comparison value or the signal on input 1, and the subtractor
output feeds a `Tone.GreaterThanZero`.  `threshold` is the value carried by
the subtractor's second input at the sample considered. -/
def output (threshold a : ℚ) : ℚ :=
  greaterThanZero (subtractOut a threshold)

end GreaterThan

/-! ## Envelope follower (`Tone.Follower`) -/

/-- Internal nodes of the follower created by the `Tone.Follower`
constructor: the composite input and output ports, `_abs`, `_filter` (with
its cutoff-frequency parameter as a separate port), `_frequencyValues`,
`_sub`, `_delay` and `_mult`. -/
inductive FNode
  | input
  | abs
  | filter
  | filterFrequency
  | frequencyValues
  | sub
  | delay
  | mult
  | output
deriving DecidableEq, Repr

/-- The set of internal nodes owned by a follower instance. -/
def followerNodes : List FNode :=
  [FNode.input, FNode.abs, FNode.filter, FNode.filterFrequency,
   FNode.frequencyValues, FNode.sub, FNode.delay, FNode.mult, FNode.output]

/-- Connections wired by the `Tone.Follower` constructor (Follower.js lines
78–83), each edge `(source, destination, destination input index)`:
`input.chain(_abs, _filter, output)`; `_abs.connect(_sub, 0, 1)`;
`_filter.chain(_delay, _sub)`; and
`_sub.chain(_mult, _frequencyValues, _filter.frequency)`. -/
def followerEdges : List (FNode × FNode × ℕ) :=
  [(FNode.input, FNode.abs, 0), (FNode.abs, FNode.filter, 0),
   (FNode.filter, FNode.output, 0),
   (FNode.abs, FNode.sub, 1),
   (FNode.filter, FNode.delay, 0), (FNode.delay, FNode.sub, 0),
   (FNode.sub, FNode.mult, 0), (FNode.mult, FNode.frequencyValues, 0),
   (FNode.frequencyValues, FNode.filterFrequency, 0)]

/-- Modelled from the spec: `toSeconds` is part of the engine core, not under
`src/`; a TimeValue is resolved once to a floating-point seconds value, so we
take TimeValue to be that already-resolved rational number of seconds. -/
def toSeconds (t : ℚ) : ℚ := t

/-- Modelled from the spec: `secondsToFrequency` is part of the engine core,
not under `src/`; it converts a duration in seconds to the corresponding
frequency, the reciprocal (on the rationals the reciprocal of 0 is 0). -/
def secondsToFrequency (s : ℚ) : ℚ := 1 / s

/-- Translation of the map installed by `this._frequencyValues.setMap`
(Follower.js lines 111–117): inputs ≤ 0 map to the attack value, inputs
> 0 map to the release value. -/
def frequencyValuesMap (attack release v : ℚ) : ℚ :=
  if v ≤ 0 then attack else release

/-- State of a `Tone.Follower` instance: the engine quantum
`this.bufferTime`, the stored `_attack` and `_release` TimeValues, the two
output values currently held by the `_frequencyValues` shaping table, and
the owned nodes and connections. -/
structure FollowerState where
  bufferTime : ℚ
  attack : ℚ
  release : ℚ
  tableAttack : ℚ
  tableRelease : ℚ
  nodes : List FNode
  edges : List (FNode × FNode × ℕ)
deriving DecidableEq, Repr

namespace Follower

/-- Translation of `Tone.Follower.prototype._setAttackRelease` (Follower.js
lines 105–118): convert each TimeValue with
`secondsToFrequency(toSeconds(·))`, floor both at `minTime = this.bufferTime`
with `Math.max`, and rebuild the shaping table with the two values. -/
def setAttackRelease (s : FollowerState) (attack release : ℚ) :
    FollowerState :=
  let minTime := s.bufferTime
  let attack := secondsToFrequency (toSeconds attack)
  let release := secondsToFrequency (toSeconds release)
  let attack := max attack minTime
  let release := max release minTime
  { s with tableAttack := attack, tableRelease := release }

/-- Translation of the `Tone.Follower` constructor (Follower.js lines
18–86) at the state level: store `_attack` and `_release`, wire the fixed
topology, and call `_setAttackRelease(this._attack, this._release)`. -/
def construct (bufferTime attack release : ℚ) : FollowerState :=
  let s : FollowerState :=
    { bufferTime := bufferTime, attack := attack, release := release,
      tableAttack := 0, tableRelease := 0,
      nodes := followerNodes, edges := followerEdges }
  setAttackRelease s attack release

/-- Translation of the `attack` property setter (Follower.js lines 130–133):
store the new `_attack` and call `_setAttackRelease(_attack, _release)`. -/
def setAttack (s : FollowerState) (a : ℚ) : FollowerState :=
  let s := { s with attack := a }
  setAttackRelease s s.attack s.release

/-- Translation of the `release` property setter (Follower.js lines
146–149): store the new `_release` and call
`_setAttackRelease(_attack, _release)`. -/
def setRelease (s : FollowerState) (r : ℚ) : FollowerState :=
  let s := { s with release := r }
  setAttackRelease s s.attack s.release

end Follower

/-! ### Dataflow semantics of the follower's direction path

Discrete time in quanta: the `_delay` node is set to one `bufferTime`, i.e.
one quantum, so its output at `t` is its input at `t - 1` (0 at `t = 0`).
Per the wiring above, the subtractor's input 0 is the delayed filter output
(`_filter.chain(_delay, _sub)`) and its input 1 is the rectified signal
(`_abs.connect(_sub, 0, 1)`); the subtractor outputs `in0 − in1`. -/

/-- Output of a one-quantum delay line applied to a stream. -/
def delayByOne (f : ℕ → ℚ) : ℕ → ℚ :=
  fun t => match t with
  | 0 => 0
  | u + 1 => f u

/-- The stream produced by the follower's `_sub` node, given the rectified
stream `r` (output of `_abs`) and the filter output stream `s`: input 0 is
`delayByOne s`, input 1 is `r`. -/
def followerSubOut (r s : ℕ → ℚ) : ℕ → ℚ :=
  fun t => subtractOut (delayByOne s t) (r t)

/-- The stream entering the `_frequencyValues` shaping table: the `_sub`
output amplified by the fixed gain 10000 of `_mult`. -/
def followerTableIn (r s : ℕ → ℚ) : ℕ → ℚ :=
  fun t => 10000 * followerSubOut r s t

/-- The stream delivered to `_filter.frequency`: the shaping table applied
to the amplified direction signal. -/
def followerFreqOut (st : FollowerState) (r s : ℕ → ℚ) : ℕ → ℚ :=
  fun t => frequencyValuesMap st.tableAttack st.tableRelease
    (followerTableIn r s t)

/-! ## Disposal state machines

Each composite's `dispose` nulls every internal field right after releasing
it.  We model the nullable fields as `Option ℕ` holding the identity of the
internal primitive, and `dispose` as a function returning the final field
state, the list of primitive identities that were disconnected or released
during the call (in call order), and a flag recording whether the call
raised a TypeError by invoking a method on a nulled field.  The inherited
`Tone.prototype.dispose` boilerplate (engine core, out of scope per the
spec) touches none of these fields. -/

/-- Nullable internal fields of a `Tone.GreaterThan` instance. -/
structure GTRefs where
  valueRef : Option ℕ
  gtzRef : Option ℕ
deriving DecidableEq, Repr

namespace GreaterThan

/-- Field state right after the `Tone.GreaterThan` constructor: `_value` and
`_gtz` hold the two internal primitives. -/
def initRefs : GTRefs := { valueRef := some 0, gtzRef := some 1 }

/-- Translation of `Tone.GreaterThan.prototype.dispose` (GreaterThan.js
lines 43–50): `this._value.dispose(); this._value = null;
this._gtz.dispose(); this._gtz = null;` — each method call on a nulled
field raises a TypeError, ending the call there. -/
def dispose (s : GTRefs) : GTRefs × List ℕ × Bool :=
  match s.valueRef with
  | none => (s, [], true)
  | some v =>
    let s := { s with valueRef := none }
    match s.gtzRef with
    | none => (s, [v], true)
    | some g => ({ s with gtzRef := none }, [v, g], false)

end GreaterThan

/-- Nullable internal fields of a `Tone.Follower` instance. -/
structure FollowerRefs where
  filterRef : Option ℕ
  frequencyValuesRef : Option ℕ
  delayRef : Option ℕ
  subRef : Option ℕ
  absRef : Option ℕ
  multRef : Option ℕ
deriving DecidableEq, Repr

namespace Follower

/-- Field state right after the `Tone.Follower` constructor. -/
def initRefs : FollowerRefs :=
  { filterRef := some 0, frequencyValuesRef := some 1, delayRef := some 2,
    subRef := some 3, absRef := some 4, multRef := some 5 }

/-- Translation of `Tone.Follower.prototype.dispose` (Follower.js lines
162–178): disconnect and null `_filter`, `_frequencyValues`, `_delay` and
`_sub`, then dispose and null `_abs` and `_mult`; a method call on a nulled
field raises a TypeError, ending the call there. -/
def dispose (s : FollowerRefs) : FollowerRefs × List ℕ × Bool :=
  match s.filterRef with
  | none => (s, [], true)
  | some f =>
    let s := { s with filterRef := none }
    match s.frequencyValuesRef with
    | none => (s, [f], true)
    | some fv =>
      let s := { s with frequencyValuesRef := none }
      match s.delayRef with
      | none => (s, [f, fv], true)
      | some d =>
        let s := { s with delayRef := none }
        match s.subRef with
        | none => (s, [f, fv, d], true)
        | some sb =>
          let s := { s with subRef := none }
          match s.absRef with
          | none => (s, [f, fv, d, sb], true)
          | some ab =>
            let s := { s with absRef := none }
            match s.multRef with
            | none => (s, [f, fv, d, sb, ab], true)
            | some m =>
              ({ s with multRef := none }, [f, fv, d, sb, ab, m], false)

end Follower

/-- Nullable internal fields of a `Tone.PingPongDelay` instance, including
the feedback primitives owned by the inherited stereo cross-feedback
base. -/
structure PingPongRefs where
  fbLRRef : Option ℕ
  fbRLRef : Option ℕ
  leftDelayRef : Option ℕ
  rightDelayRef : Option ℕ
  delayTimeRef : Option ℕ
deriving DecidableEq, Repr

namespace PingPongDelay

/-- Field state right after the `Tone.PingPongDelay` constructor. -/
def initRefs : PingPongRefs :=
  { fbLRRef := some 0, fbRLRef := some 1, leftDelayRef := some 2,
    rightDelayRef := some 3, delayTimeRef := some 4 }

/-- Translation of `Tone.PingPongDelay.prototype.dispose` (GreaterThan.js
lines 156–165): first the inherited base dispose — modelled from the spec,
since `Tone.StereoXFeedbackEffect` is not under `src/`: it releases and
nulls its own feedback primitives in the same release-then-null pattern —
then disconnect and null `_leftDelay` and `_rightDelay` and dispose and null
`delayTime`; a method call on a nulled field raises a TypeError, ending the
call there. -/
def dispose (s : PingPongRefs) : PingPongRefs × List ℕ × Bool :=
  match s.fbLRRef with
  | none => (s, [], true)
  | some a =>
    let s := { s with fbLRRef := none }
    match s.fbRLRef with
    | none => (s, [a], true)
    | some b =>
      let s := { s with fbRLRef := none }
      match s.leftDelayRef with
      | none => (s, [a, b], true)
      | some l =>
        let s := { s with leftDelayRef := none }
        match s.rightDelayRef with
        | none => (s, [a, b, l], true)
        | some r =>
          let s := { s with rightDelayRef := none }
          match s.delayTimeRef with
          | none => (s, [a, b, l, r], true)
          | some dt =>
            ({ s with delayTimeRef := none }, [a, b, l, r, dt], false)

end PingPongDelay

/-! ## Stereo feedback delay network (`Tone.PingPongDelay`): graph -/

/-- Ports and internal nodes of a `Tone.PingPongDelay` instance: the base
effect's send and return points for both channels, the two delay lines with
their delay-time parameters, the shared `delayTime` signal, and the two
feedback primitives of the inherited cross-feedback base. -/
inductive PNode
  | effectSendL
  | effectSendR
  | effectReturnL
  | effectReturnR
  | leftDelay
  | rightDelay
  | leftDelayTime
  | rightDelayTime
  | delayTime
  | feedbackLR
  | feedbackRL
deriving DecidableEq, Repr

/-- Modelled from the spec: the `Tone.StereoXFeedbackEffect` base is not
under `src/`; it routes each channel's feedback into the opposite channel's
send — the left return feeds `_feedbackLR` into the right send, and the
right return feeds `_feedbackRL` into the left send (the generic
cross-feedback point). -/
def stereoXFeedbackBaseEdges : List (PNode × PNode) :=
  [(PNode.effectReturnL, PNode.feedbackLR),
   (PNode.feedbackLR, PNode.effectSendR),
   (PNode.effectReturnR, PNode.feedbackRL),
   (PNode.feedbackRL, PNode.effectSendL)]

/-- JavaScript `node.disconnect()` with no argument: removes every outgoing
edge of the node. -/
def disconnectAll (n : PNode) (es : List (PNode × PNode)) :
    List (PNode × PNode) :=
  es.filter (fun e => e.1 ≠ n)

/-- Translation of the `Tone.PingPongDelay` constructor wiring
(GreaterThan.js lines 132–138) applied on top of the base effect's edges:
`effectSendL.chain(_leftDelay, effectReturnL)`,
`effectSendR.chain(_rightDelay, effectReturnR)`,
`delayTime.fan(_leftDelay.delayTime, _rightDelay.delayTime)`, then
`_feedbackRL.disconnect()` and `_feedbackRL.connect(_leftDelay)`.  The
composite exposes no other topology-mutating operation before `dispose`, so
this is the edge set at every moment of the instance's life. -/
def pingPongEdges : List (PNode × PNode) :=
  let es := stereoXFeedbackBaseEdges
  let es := es ++ [(PNode.effectSendL, PNode.leftDelay),
                   (PNode.leftDelay, PNode.effectReturnL)]
  let es := es ++ [(PNode.effectSendR, PNode.rightDelay),
                   (PNode.rightDelay, PNode.effectReturnR)]
  let es := es ++ [(PNode.delayTime, PNode.leftDelayTime),
                   (PNode.delayTime, PNode.rightDelayTime)]
  let es := disconnectAll PNode.feedbackRL es
  es ++ [(PNode.feedbackRL, PNode.leftDelay)]

/-! ### Dataflow semantics of the ping-pong network

Discrete time in processing quanta.  A single unit impulse arrives on the
left input at `t = 0` (the right input is silent).  Each delay line delays
by `D + 1` quanta — every engine delay carries at least one quantum.  The
feedback primitives apply a gain `g` (modelled from the spec: the feedback
amount of the cross-feedback base).  Per the wiring proved in the C8
theorem below: the left delay's input sums the left send (the impulse) with
the rerouted right-to-left feedback `g · returnR`, the left return is the
left delay's output, the right send is the left-to-right feedback
`g · returnL`, and the right return is the right delay applied to the right
send. -/

/-- The pair `(left return, right return)` of the ping-pong network at
quantum `t`, for delay `D + 1` and feedback gain `g`, with a unit impulse on
the left input at `t = 0`. -/
def pingPongReturns (D : ℕ) (g : ℚ) (t : ℕ) : ℚ × ℚ :=
  if t < D + 1 then (0, 0)
  else
    let u := t - (D + 1)
    ((if u = 0 then 1 else 0) + g * (pingPongReturns D g u).2,
     g * (pingPongReturns D g u).1)
termination_by t
decreasing_by all_goals omega

/-- Before one full delay has elapsed both returns are silent. -/
theorem pingPongReturns_early (D : ℕ) (g : ℚ) (t : ℕ) (h : t < D + 1) :
    pingPongReturns D g t = (0, 0) := by
  unfold pingPongReturns
  simp [h]

/-- Unfolding of the network one delay hop after quantum `u`. -/
theorem pingPongReturns_shift (D : ℕ) (g : ℚ) (u : ℕ) :
    pingPongReturns D g (u + (D + 1)) =
      ((if u = 0 then 1 else 0) + g * (pingPongReturns D g u).2,
       g * (pingPongReturns D g u).1) := by
  rw [pingPongReturns]
  have h : ¬ u + (D + 1) < D + 1 := by omega
  simp [h]

/-- A nonzero left return happens only at an odd multiple of the delay, and
a nonzero right return only at a positive even multiple. -/
theorem pingPong_support (D : ℕ) (g : ℚ) (t : ℕ) :
    ((pingPongReturns D g t).1 ≠ 0 → ∃ k, t = (2 * k + 1) * (D + 1)) ∧
    ((pingPongReturns D g t).2 ≠ 0 → ∃ k, t = (2 * k + 2) * (D + 1)) := by
  induction t using Nat.strong_induction_on with
  | _ t ih =>
    by_cases h1 : t < D + 1
    · rw [pingPongReturns_early D g t h1]
      constructor <;> intro h <;> exact absurd rfl h
    · obtain ⟨u, rfl⟩ : ∃ u, t = u + (D + 1) :=
        ⟨t - (D + 1), by omega⟩
      rw [pingPongReturns_shift]
      have hu : u < u + (D + 1) := by omega
      constructor
      · intro h
        by_cases h0 : u = 0
        · exact ⟨0, by omega⟩
        · have h2 : (pingPongReturns D g u).2 ≠ 0 := by
            intro hz
            rw [if_neg h0, hz] at h
            simp at h
          obtain ⟨k, hk⟩ := (ih u hu).2 h2
          refine ⟨k + 1, ?_⟩
          rw [hk]
          ring
      · intro h
        have h2 : (pingPongReturns D g u).1 ≠ 0 := by
          intro hz
          rw [hz] at h
          simp at h
        obtain ⟨k, hk⟩ := (ih u hu).1 h2
        refine ⟨k, ?_⟩
        rw [hk]
        ring

/-- Closed form of the echo amplitudes: the left return at the
`(2k+1)`-th delay multiple is `g ^ (2k)` and the right return at the
`(2k+2)`-th multiple is `g ^ (2k+1)`. -/
theorem pingPong_closed_form (D : ℕ) (g : ℚ) (k : ℕ) :
    (pingPongReturns D g ((2 * k + 1) * (D + 1))).1 = g ^ (2 * k) ∧
    (pingPongReturns D g ((2 * k + 2) * (D + 1))).2 = g ^ (2 * k + 1) := by
  induction k with
  | zero =>
    constructor
    · have h : (2 * 0 + 1) * (D + 1) = 0 + (D + 1) := by ring
      rw [h, pingPongReturns_shift, pingPongReturns_early D g 0 (by omega)]
      norm_num
    · have h : (2 * 0 + 2) * (D + 1) = (0 + (D + 1)) + (D + 1) := by ring
      rw [h, pingPongReturns_shift, pingPongReturns_shift,
        pingPongReturns_early D g 0 (by omega)]
      norm_num
  | succ n ihn =>
    constructor
    · have h : (2 * (n + 1) + 1) * (D + 1) =
          (2 * n + 2) * (D + 1) + (D + 1) := by ring
      rw [h, pingPongReturns_shift, ihn.2,
        if_neg (by positivity : (2 * n + 2) * (D + 1) ≠ 0)]
      rw [← pow_succ' g (2 * n + 1)]
      show 0 + g ^ (2 * n + 1 + 1) = g ^ (2 * (n + 1))
      rw [zero_add]
      congr 1
    · have h : (2 * (n + 1) + 2) * (D + 1) =
          (2 * (n + 1) + 1) * (D + 1) + (D + 1) := by ring
      have h1 : (pingPongReturns D g ((2 * (n + 1) + 1) * (D + 1))).1 =
          g ^ (2 * (n + 1)) := by
        have h2 : (2 * (n + 1) + 1) * (D + 1) =
            (2 * n + 2) * (D + 1) + (D + 1) := by ring
        rw [h2, pingPongReturns_shift, ihn.2,
          if_neg (by positivity : (2 * n + 2) * (D + 1) ≠ 0)]
        rw [← pow_succ' g (2 * n + 1)]
        show 0 + g ^ (2 * n + 1 + 1) = g ^ (2 * (n + 1))
        rw [zero_add]
        congr 1
      rw [h, pingPongReturns_shift, h1, ← pow_succ' g (2 * (n + 1))]

end ToneModel

namespace ToneModel

/-! ## Theorems for claims C5, C10 and C1 -/

/-- C5: for all inputs `a` and thresholds `t`, `GreaterThan` outputs 1 iff
`a > t` and outputs 0 otherwise (so equality yields 0); it is the composition
of a subtractor computing `a - t` with a `GreaterThanZero` stage that outputs
1 exactly on strictly positive inputs, with `GreaterThanZero 0 = 0`. -/
theorem greaterThan_strict_contract (a t : ℚ) :
    (GreaterThan.output t a = 1 ↔ t < a) ∧
    (GreaterThan.output t a = 0 ↔ ¬ t < a) ∧
    GreaterThan.output t t = 0 ∧
    GreaterThan.output t a = greaterThanZero (subtractOut a t) ∧
    (∀ x : ℚ, (greaterThanZero x = 1 ↔ 0 < x) ∧
      (greaterThanZero x = 0 ↔ ¬ 0 < x)) ∧
    greaterThanZero 0 = 0 := by
  refine ⟨?_, ?_, ?_, rfl, ?_, by norm_num [greaterThanZero]⟩
  · unfold GreaterThan.output greaterThanZero subtractOut
    constructor
    · intro h
      by_contra hc
      simp [sub_pos, hc] at h
    · intro h
      simp [sub_pos, h]
  · unfold GreaterThan.output greaterThanZero subtractOut
    constructor
    · intro h
      intro hc
      rw [if_pos (by linarith)] at h
      norm_num at h
    · intro h
      rw [if_neg (by intro hc; exact h (by linarith))]
  · unfold GreaterThan.output greaterThanZero subtractOut
    norm_num
  · intro x
    unfold greaterThanZero
    constructor
    · constructor
      · intro h
        by_contra hc
        simp [hc] at h
      · intro h
        simp [h]
    · constructor
      · intro h
        intro hc
        simp [hc] at h
      · intro h
        simp [h]

/-- C10: the zero-reset rule of `connect` fires only when the destination's
constructor is exactly `Tone.Signal` or the destination is an `AudioParam`
instance; every other destination — including an instance of the
`Tone.GreaterThan` subclass of `Tone.Signal` — keeps its scheduled automation
and held value unchanged, and the edge is still added. -/
theorem connect_reset_only_exact_signal_or_audioParam
    (srcId destId : ℕ) (node : DestState) (edges : List (ℕ × ℕ))
    (hsig : node.ctor ≠ NodeCtor.signal)
    (hpar : isAudioParamInstance node.ctor = false) :
    (SignalBase.connect srcId destId node edges).dest = node ∧
    (SignalBase.connect srcId destId node edges).edges =
      edges ++ [(srcId, destId)] := by
  unfold SignalBase.connect
  simp [hsig, hpar]

/-- Witness for `connect_reset_only_exact_signal_or_audioParam`: a
`Tone.GreaterThan` destination (a subclass instance of `Tone.Signal`) with
pending automation and a nonzero held value is left fully intact. -/
theorem connect_reset_only_exact_signal_or_audioParam_witness :
    (SignalBase.connect 7 9
        ⟨NodeCtor.greaterThan, [3], 5⟩ []).dest =
      ⟨NodeCtor.greaterThan, [3], 5⟩ ∧
    (SignalBase.connect 7 9
        ⟨NodeCtor.greaterThan, [3], 5⟩ []).edges = [(7, 9)] :=
  connect_reset_only_exact_signal_or_audioParam 7 9
    ⟨NodeCtor.greaterThan, [3], 5⟩ [] (by decide) (by decide)

/-- C1 counterexample: a destination that is a signal (an instance of the
`Tone.GreaterThan` subclass of `Tone.Signal`, hence a
control-parameter-bearing port) on which `connect` cancels nothing and
resets nothing: its pending automation `[3]` and held value `5` survive the
call, contradicting the claim that any signal destination is cancelled and
reset to 0 before the edge is added. -/
theorem connect_claim_false_on_signal_subclass :
    isSignalInstance NodeCtor.greaterThan = true ∧
    (SignalBase.connect 1 2 ⟨NodeCtor.greaterThan, [3], 5⟩ []).dest.scheduled
      = [3] ∧
    (SignalBase.connect 1 2 ⟨NodeCtor.greaterThan, [3], 5⟩ []).dest.value
      = 5 := by
  refine ⟨rfl, ?_, ?_⟩ <;> decide

/-- C1 amended: if the destination's constructor is exactly `Tone.Signal` or
the destination is an `AudioParam` instance, `connect` first cancels all
scheduled automation on it and resets its held value to 0, and then adds the
edge; if the destination is a plain audio-rate node with no parameter
semantics, `connect` adds the edge with no cancellation and no reset.
(Signal-subclass destinations are in the second group; see the
counterexample and the C10 theorem.) -/
theorem connect_zero_reset_discipline
    (srcId destId : ℕ) (node : DestState) (edges : List (ℕ × ℕ)) :
    ((node.ctor = NodeCtor.signal ∨ isAudioParamInstance node.ctor = true) →
      (SignalBase.connect srcId destId node edges).dest.scheduled = [] ∧
      (SignalBase.connect srcId destId node edges).dest.value = 0 ∧
      (SignalBase.connect srcId destId node edges).edges =
        edges ++ [(srcId, destId)]) ∧
    (node.ctor = NodeCtor.plainAudio →
      (SignalBase.connect srcId destId node edges).dest = node ∧
      (SignalBase.connect srcId destId node edges).edges =
        edges ++ [(srcId, destId)]) := by
  constructor
  · rintro (h | h)
    · unfold SignalBase.connect
      simp [h]
    · unfold SignalBase.connect
      rcases node with ⟨c, s, v⟩
      cases c <;> simp_all [isAudioParamInstance]
  · intro h
    rcases node with ⟨c, s, v⟩
    simp only at h
    subst h
    exact ⟨rfl, rfl⟩

/-- Witness for `connect_zero_reset_discipline`: a genuine `Tone.Signal`
destination with automation `[4]` and value `7` is cancelled and zeroed with
the edge added, while a plain audio destination passes through untouched. -/
theorem connect_zero_reset_discipline_witness :
    ((SignalBase.connect 0 1 ⟨NodeCtor.signal, [4], 7⟩ []).dest.scheduled = []
      ∧ (SignalBase.connect 0 1 ⟨NodeCtor.signal, [4], 7⟩ []).dest.value = 0
      ∧ (SignalBase.connect 0 1 ⟨NodeCtor.signal, [4], 7⟩ []).edges
          = [(0, 1)]) ∧
    ((SignalBase.connect 0 1 ⟨NodeCtor.plainAudio, [4], 7⟩ []).dest
        = ⟨NodeCtor.plainAudio, [4], 7⟩
      ∧ (SignalBase.connect 0 1 ⟨NodeCtor.plainAudio, [4], 7⟩ []).edges
          = [(0, 1)]) :=
  ⟨(connect_zero_reset_discipline 0 1 ⟨NodeCtor.signal, [4], 7⟩ []).1
      (Or.inl rfl),
   (connect_zero_reset_discipline 0 1 ⟨NodeCtor.plainAudio, [4], 7⟩ []).2
      rfl⟩

/-! ## Theorems for claims C3, C4 and C6 -/

/-- C3 counterexample: with rectified stream constantly 1 and filter output
constantly 0, the signal produced by the follower's subtractor at `t = 1` is
`-1`, not the claimed `r(1) - s(0) = 1`: the wiring computes the delayed
filter output minus the rectified input, the negation of the claimed
direction signal. -/
theorem follower_direction_claim_false :
    followerSubOut (fun _ => 1) (fun _ => 0) 1 = -1 ∧
    (fun _ => (1 : ℚ)) 1 - (fun _ => (0 : ℚ)) 0 = 1 ∧
    followerSubOut (fun _ => 1) (fun _ => 0) 1 ≠
      (fun _ => (1 : ℚ)) 1 - (fun _ => (0 : ℚ)) 0 := by
  refine ⟨?_, by norm_num, ?_⟩ <;>
    norm_num [followerSubOut, subtractOut, delayByOne]

/-- C3 amended: the direction signal fed (after amplification by the fixed
positive gain) into the shaping table is `d(t) = s(t-ε) - r(t)`, the
one-quantum-delayed filter output minus the undelayed rectified input (the
negation of the claimed formula); the shaping table maps every value ≤ 0 to
the attack cutoff and every value > 0 to the release cutoff, so the filter's
cutoff parameter receives the attack value exactly when the table input —
equivalently the direction signal — is non-positive. -/
theorem follower_direction_and_table (st : FollowerState)
    (r s : ℕ → ℚ) (t : ℕ) (ht : 1 ≤ t) :
    followerSubOut r s t = s (t - 1) - r t ∧
    (∀ v : ℚ, v ≤ 0 →
      frequencyValuesMap st.tableAttack st.tableRelease v = st.tableAttack) ∧
    (∀ v : ℚ, 0 < v →
      frequencyValuesMap st.tableAttack st.tableRelease v = st.tableRelease) ∧
    followerFreqOut st r s t =
      (if followerSubOut r s t ≤ 0 then st.tableAttack else st.tableRelease)
    := by
  refine ⟨?_, ?_, ?_, ?_⟩
  · cases t with
    | zero => exact absurd ht (by norm_num)
    | succ u => simp [followerSubOut, subtractOut, delayByOne]
  · intro v hv
    simp [frequencyValuesMap, hv]
  · intro v hv
    simp [frequencyValuesMap, not_le.mpr hv]
  · unfold followerFreqOut followerTableIn frequencyValuesMap
    have hiff : 10000 * followerSubOut r s t ≤ 0 ↔ followerSubOut r s t ≤ 0
        := by
      constructor <;> intro h <;> nlinarith
    rcases le_or_lt (followerSubOut r s t) 0 with h | h
    · rw [if_pos (hiff.mpr h), if_pos h]
    · rw [if_neg (by rw [hiff]; exact not_le.mpr h), if_neg (not_le.mpr h)]

/-- Witness for `follower_direction_and_table` at a concrete state, streams
and time step. -/
theorem follower_direction_and_table_witness :
    (1 : ℕ) ≤ 1 ∧
    (followerSubOut (fun _ => 1) (fun _ => 2) 1 =
        (fun _ => (2 : ℚ)) (1 - 1) - (fun _ => (1 : ℚ)) 1 ∧
      (∀ v : ℚ, v ≤ 0 →
        frequencyValuesMap (Follower.construct 1 3 4).tableAttack
          (Follower.construct 1 3 4).tableRelease v =
          (Follower.construct 1 3 4).tableAttack) ∧
      (∀ v : ℚ, 0 < v →
        frequencyValuesMap (Follower.construct 1 3 4).tableAttack
          (Follower.construct 1 3 4).tableRelease v =
          (Follower.construct 1 3 4).tableRelease) ∧
      followerFreqOut (Follower.construct 1 3 4) (fun _ => 1) (fun _ => 2) 1 =
        (if followerSubOut (fun _ => 1) (fun _ => 2) 1 ≤ 0 then
          (Follower.construct 1 3 4).tableAttack
        else (Follower.construct 1 3 4).tableRelease)) :=
  ⟨le_refl 1,
   follower_direction_and_table (Follower.construct 1 3 4)
     (fun _ => 1) (fun _ => 2) 1 (le_refl 1)⟩

/-- C4: every attack and release TimeValue, at construction and through both
setters, is converted with `secondsToFrequency(toSeconds(·))` and floored at
the engine minimum `bufferTime` (one processing quantum), so whenever that
minimum is positive the two values stored in the shaping table are at least
the minimum — never zero or negative — and a non-positive or degenerate
duration is clamped rather than raising an error. -/
theorem follower_attack_release_clamped (s : FollowerState)
    (bt a r : ℚ) (hbt : 0 < bt) (hs : 0 < s.bufferTime) :
    (Follower.setAttackRelease s a r).tableAttack =
      max (secondsToFrequency (toSeconds a)) s.bufferTime ∧
    (Follower.setAttackRelease s a r).tableRelease =
      max (secondsToFrequency (toSeconds r)) s.bufferTime ∧
    s.bufferTime ≤ (Follower.setAttackRelease s a r).tableAttack ∧
    s.bufferTime ≤ (Follower.setAttackRelease s a r).tableRelease ∧
    0 < (Follower.construct bt a r).tableAttack ∧
    0 < (Follower.construct bt a r).tableRelease ∧
    0 < (Follower.setAttack s a).tableAttack ∧
    0 < (Follower.setRelease s r).tableRelease ∧
    (∀ v : ℚ, 0 <
      frequencyValuesMap (Follower.construct bt a r).tableAttack
        (Follower.construct bt a r).tableRelease v) := by
  refine ⟨rfl, rfl, le_max_right _ _, le_max_right _ _, ?_, ?_, ?_, ?_, ?_⟩
  · exact lt_of_lt_of_le hbt (le_max_right _ _)
  · exact lt_of_lt_of_le hbt (le_max_right _ _)
  · exact lt_of_lt_of_le hs (le_max_right _ _)
  · exact lt_of_lt_of_le hs (le_max_right _ _)
  · intro v
    unfold frequencyValuesMap
    rcases le_or_lt v 0 with h | h
    · rw [if_pos h]
      exact lt_of_lt_of_le hbt (le_max_right _ _)
    · rw [if_neg (not_le.mpr h)]
      exact lt_of_lt_of_le hbt (le_max_right _ _)

/-- Witness for `follower_attack_release_clamped`: a degenerate zero attack
and a negative release are clamped to the positive minimum. -/
theorem follower_attack_release_clamped_witness :
    (0 : ℚ) < 1/100 ∧ (0 : ℚ) < (Follower.construct (1/100) 5 5).bufferTime ∧
    ((Follower.setAttackRelease (Follower.construct (1/100) 5 5) 0
        (-2)).tableAttack =
      max (secondsToFrequency (toSeconds 0))
        (Follower.construct (1/100) 5 5).bufferTime ∧
    (Follower.setAttackRelease (Follower.construct (1/100) 5 5) 0
        (-2)).tableRelease =
      max (secondsToFrequency (toSeconds (-2)))
        (Follower.construct (1/100) 5 5).bufferTime ∧
    (Follower.construct (1/100) 5 5).bufferTime ≤
      (Follower.setAttackRelease (Follower.construct (1/100) 5 5) 0
        (-2)).tableAttack ∧
    (Follower.construct (1/100) 5 5).bufferTime ≤
      (Follower.setAttackRelease (Follower.construct (1/100) 5 5) 0
        (-2)).tableRelease ∧
    0 < (Follower.construct (1/100) 0 (-2)).tableAttack ∧
    0 < (Follower.construct (1/100) 0 (-2)).tableRelease ∧
    0 < (Follower.setAttack (Follower.construct (1/100) 5 5) 0).tableAttack ∧
    0 < (Follower.setRelease (Follower.construct (1/100) 5 5)
          (-2)).tableRelease ∧
    (∀ v : ℚ, 0 <
      frequencyValuesMap (Follower.construct (1/100) 0 (-2)).tableAttack
        (Follower.construct (1/100) 0 (-2)).tableRelease v)) :=
  ⟨by norm_num, by norm_num [Follower.construct, Follower.setAttackRelease],
   follower_attack_release_clamped (Follower.construct (1/100) 5 5)
     (1/100) 0 (-2) (by norm_num)
     (by norm_num [Follower.construct, Follower.setAttackRelease])⟩

/-- C6: setting the follower's `attack` or `release` property leaves the set
of internal primitives, the set of connections between them, and the engine
quantum unchanged; only the stored property and the shaping table's two
output values are recomputed.  The topology always remains the fixed one
wired by the constructor. -/
theorem follower_setters_preserve_topology (s : FollowerState)
    (bt a0 r0 a r : ℚ) :
    (Follower.setAttack s a).nodes = s.nodes ∧
    (Follower.setAttack s a).edges = s.edges ∧
    (Follower.setAttack s a).bufferTime = s.bufferTime ∧
    (Follower.setAttack s a).release = s.release ∧
    (Follower.setRelease s r).nodes = s.nodes ∧
    (Follower.setRelease s r).edges = s.edges ∧
    (Follower.setRelease s r).bufferTime = s.bufferTime ∧
    (Follower.setRelease s r).attack = s.attack ∧
    (Follower.construct bt a0 r0).nodes = followerNodes ∧
    (Follower.construct bt a0 r0).edges = followerEdges ∧
    (Follower.setAttack s a).tableAttack =
      (Follower.setAttackRelease s a s.release).tableAttack ∧
    (Follower.setRelease s r).tableRelease =
      (Follower.setAttackRelease s s.attack r).tableRelease :=
  ⟨rfl, rfl, rfl, rfl, rfl, rfl, rfl, rfl, rfl, rfl, rfl, rfl⟩

/-! ## Theorems for claims C2, C7 and C8 -/

/-- C2 counterexample: on each of the three composites, the first `dispose`
succeeds, but a second `dispose` raises a TypeError (the first nulled field
is dereferenced), contradicting the claim that the second call does not
raise an error. -/
theorem dispose_twice_raises :
    (GreaterThan.dispose GreaterThan.initRefs).2.2 = false ∧
    (GreaterThan.dispose (GreaterThan.dispose GreaterThan.initRefs).1).2.2
      = true ∧
    (Follower.dispose Follower.initRefs).2.2 = false ∧
    (Follower.dispose (Follower.dispose Follower.initRefs).1).2.2 = true ∧
    (PingPongDelay.dispose PingPongDelay.initRefs).2.2 = false ∧
    (PingPongDelay.dispose
      (PingPongDelay.dispose PingPongDelay.initRefs).1).2.2 = true := by
  decide

/-- C2 amended: for every composite (Follower, GreaterThan, PingPongDelay),
the first `dispose` succeeds and releases each internal primitive exactly
once; a second `dispose` raises a TypeError — a defined error — while
performing no disconnect or release operation on any primitive and leaving
the field state unchanged, so it never operates on a released primitive. -/
theorem dispose_second_call_no_released_primitive_touched :
    ((GreaterThan.dispose GreaterThan.initRefs).2.2 = false ∧
      (GreaterThan.dispose GreaterThan.initRefs).2.1 = [0, 1] ∧
      (GreaterThan.dispose GreaterThan.initRefs).2.1.Nodup ∧
      GreaterThan.dispose (GreaterThan.dispose GreaterThan.initRefs).1 =
        ((GreaterThan.dispose GreaterThan.initRefs).1, [], true)) ∧
    ((Follower.dispose Follower.initRefs).2.2 = false ∧
      (Follower.dispose Follower.initRefs).2.1 = [0, 1, 2, 3, 4, 5] ∧
      (Follower.dispose Follower.initRefs).2.1.Nodup ∧
      Follower.dispose (Follower.dispose Follower.initRefs).1 =
        ((Follower.dispose Follower.initRefs).1, [], true)) ∧
    ((PingPongDelay.dispose PingPongDelay.initRefs).2.2 = false ∧
      (PingPongDelay.dispose PingPongDelay.initRefs).2.1 = [0, 1, 2, 3, 4] ∧
      (PingPongDelay.dispose PingPongDelay.initRefs).2.1.Nodup ∧
      PingPongDelay.dispose
          (PingPongDelay.dispose PingPongDelay.initRefs).1 =
        ((PingPongDelay.dispose PingPongDelay.initRefs).1, [], true)) := by
  decide

/-- C7: in the `Tone.PingPongDelay` graph (fixed from construction until
disposal, the composite exposing no other topology-mutating operation), the
single shared `delayTime` signal is connected to the left delay line's time
parameter and to the right delay line's time parameter, and it is the only
driver of either parameter. -/
theorem pingPong_shared_delayTime :
    (PNode.delayTime, PNode.leftDelayTime) ∈ pingPongEdges ∧
    (PNode.delayTime, PNode.rightDelayTime) ∈ pingPongEdges ∧
    pingPongEdges.filter (fun e => e.2 = PNode.leftDelayTime) =
      [(PNode.delayTime, PNode.leftDelayTime)] ∧
    pingPongEdges.filter (fun e => e.2 = PNode.rightDelayTime) =
      [(PNode.delayTime, PNode.rightDelayTime)] := by
  decide

/-- C8: after `Tone.PingPongDelay` construction the right-to-left feedback
primitive no longer feeds the base's generic cross-feedback point (the left
send) even though the base had wired it there; its only outgoing edge now
feeds the left delay line, which sits after the left send and before the
left return in the chain. -/
theorem pingPong_feedbackRL_rerouted :
    (PNode.feedbackRL, PNode.effectSendL) ∈ stereoXFeedbackBaseEdges ∧
    (PNode.feedbackRL, PNode.effectSendL) ∉ pingPongEdges ∧
    (PNode.feedbackRL, PNode.leftDelay) ∈ pingPongEdges ∧
    pingPongEdges.filter (fun e => e.1 = PNode.feedbackRL) =
      [(PNode.feedbackRL, PNode.leftDelay)] ∧
    (PNode.effectSendL, PNode.leftDelay) ∈ pingPongEdges ∧
    (PNode.leftDelay, PNode.effectReturnL) ∈ pingPongEdges := by
  decide

/-! ## Theorem for claim C9 -/

/-- C9: for a single impulse on the left input with delay `D + 1` quanta and
nonzero feedback gain, the left output is silent before one delay and its
first echo occurs exactly at the delay; the right output is silent before
two delays and its first echo occurs exactly at twice the delay; the two
outputs are never simultaneously nonzero; and the repeats alternate — the
left output sounds exactly at the odd multiples of the delay and the right
output exactly at the positive even multiples. -/
theorem pingPong_impulse_response (D : ℕ) (g : ℚ) (hg : g ≠ 0) :
    (∀ t, t < D + 1 → (pingPongReturns D g t).1 = 0) ∧
    (pingPongReturns D g (D + 1)).1 = 1 ∧
    (∀ t, t < 2 * (D + 1) → (pingPongReturns D g t).2 = 0) ∧
    (pingPongReturns D g (2 * (D + 1))).2 = g ∧
    (∀ t, ¬((pingPongReturns D g t).1 ≠ 0 ∧
            (pingPongReturns D g t).2 ≠ 0)) ∧
    (∀ t, (pingPongReturns D g t).1 ≠ 0 ↔
      ∃ k, t = (2 * k + 1) * (D + 1)) ∧
    (∀ t, (pingPongReturns D g t).2 ≠ 0 ↔
      ∃ k, t = (2 * k + 2) * (D + 1)) := by
  have hL1 : (pingPongReturns D g (D + 1)).1 = 1 := by
    have h := (pingPong_closed_form D g 0).1
    rw [show (2 * 0 + 1) * (D + 1) = D + 1 by ring] at h
    rw [h]
    norm_num
  have hR1 : (pingPongReturns D g (2 * (D + 1))).2 = g := by
    have h := (pingPong_closed_form D g 0).2
    rw [show (2 * 0 + 2) * (D + 1) = 2 * (D + 1) by ring] at h
    rw [h]
    norm_num
  refine ⟨?_, hL1, ?_, hR1, ?_, ?_, ?_⟩
  · intro t ht
    rw [pingPongReturns_early D g t ht]
  · intro t ht
    by_cases h1 : t < D + 1
    · rw [pingPongReturns_early D g t h1]
    · obtain ⟨u, rfl⟩ : ∃ u, t = u + (D + 1) := ⟨t - (D + 1), by omega⟩
      rw [pingPongReturns_shift]
      have hu : u < D + 1 := by omega
      show g * (pingPongReturns D g u).1 = 0
      rw [pingPongReturns_early D g u hu]
      norm_num
  · rintro t ⟨hL, hR⟩
    obtain ⟨k, hk⟩ := (pingPong_support D g t).1 hL
    obtain ⟨m, hm⟩ := (pingPong_support D g t).2 hR
    have h : (2 * k + 1) * (D + 1) = (2 * m + 2) * (D + 1) := by
      rw [← hk, ← hm]
    have h2 : 2 * k + 1 = 2 * m + 2 :=
      Nat.eq_of_mul_eq_mul_right (by omega) h
    omega
  · intro t
    constructor
    · exact (pingPong_support D g t).1
    · rintro ⟨k, rfl⟩
      rw [(pingPong_closed_form D g k).1]
      exact pow_ne_zero _ hg
  · intro t
    constructor
    · exact (pingPong_support D g t).2
    · rintro ⟨k, rfl⟩
      rw [(pingPong_closed_form D g k).2]
      exact pow_ne_zero _ hg

/-- Witness for `pingPong_impulse_response` at a one-quantum delay and
feedback gain one half. -/
theorem pingPong_impulse_response_witness :
    (1 : ℚ) / 2 ≠ 0 ∧
    ((∀ t, t < 0 + 1 → (pingPongReturns 0 (1/2) t).1 = 0) ∧
    (pingPongReturns 0 (1/2) (0 + 1)).1 = 1 ∧
    (∀ t, t < 2 * (0 + 1) → (pingPongReturns 0 (1/2) t).2 = 0) ∧
    (pingPongReturns 0 (1/2) (2 * (0 + 1))).2 = 1/2 ∧
    (∀ t, ¬((pingPongReturns 0 (1/2) t).1 ≠ 0 ∧
            (pingPongReturns 0 (1/2) t).2 ≠ 0)) ∧
    (∀ t, (pingPongReturns 0 (1/2) t).1 ≠ 0 ↔
      ∃ k, t = (2 * k + 1) * (0 + 1)) ∧
    (∀ t, (pingPongReturns 0 (1/2) t).2 ≠ 0 ↔
      ∃ k, t = (2 * k + 2) * (0 + 1))) :=
  ⟨by norm_num, pingPong_impulse_response 0 (1/2) (by norm_num)⟩

end ToneModel
